import Mathlib

/-!
Verification of the generation-and-revision workflow of the AutoCAD
desktop application (src/CAD2.py), via a shallow embedding of its
pure logic: Python string primitives, the code-fence stripper, the
temp-file deletion rule of the mesh importer, the executor's result
validation and failure messages, the revision history (push / undo /
redo / reset), and the session-level generation triggers.
-/

namespace AutoCAD

/-! ## Python string primitives

Paths and text are modelled as `String` / `List Char`.  `listStartsWith`,
`listEndsWith` and `listContains` model Python's `str.startswith`,
`str.endswith` and the substring test `needle in hay`; `pyStrip` models
`str.strip()` (trim whitespace from both ends). -/

/-- Python `hay.startswith(needle)` on character lists. -/
def listStartsWith : List Char → List Char → Bool
  | [], _ => true
  | _ :: _, [] => false
  | a :: as, b :: bs => a == b && listStartsWith as bs

/-- Python `hay.endswith(needle)` on character lists. -/
def listEndsWith (needle hay : List Char) : Bool :=
  listStartsWith needle.reverse hay.reverse

/-- Python `needle in hay` (contiguous substring test) on character lists. -/
def listContains (needle : List Char) : List Char → Bool
  | [] => listStartsWith needle []
  | hay@(_ :: rest) => listStartsWith needle hay || listContains needle rest

/-- The characters removed by Python `str.strip()` (ASCII whitespace). -/
def isPySpace (c : Char) : Bool :=
  c == ' ' || c == '\t' || c == '\n' || c == '\r' ||
    c == Char.ofNat 11 || c == Char.ofNat 12

/-- Python `s.strip()` on character lists. -/
def pyStrip (s : List Char) : List Char :=
  ((s.dropWhile isPySpace).reverse.dropWhile isPySpace).reverse

/-- Python `s.strip()` on strings. -/
def pyStripStr (s : String) : String := ⟨pyStrip s.data⟩

theorem listStartsWith_refl (l : List Char) : listStartsWith l l = true := by
  induction l with
  | nil => rfl
  | cons a as ih => simp [listStartsWith, ih]

theorem listContains_of_listStartsWith {n h : List Char}
    (hs : listStartsWith n h = true) : listContains n h = true := by
  cases h with
  | nil => exact hs
  | cons a rest => simp [listContains, hs]

theorem listContains_append_self (a b : List Char) :
    listContains b (a ++ b) = true := by
  induction a with
  | nil => exact listContains_of_listStartsWith (listStartsWith_refl b)
  | cons x xs ih => simp [listContains, ih]

/-! ## ModelViewer.load_stl — temporary-file deletion (src/CAD2.py lines 199-203)

After the read attempt (success or failure alike: the deletion sits in a
`finally` block), the importer runs
`if os.path.exists(stl_filepath) and tempfile.gettempdir() in stl_filepath:
os.remove(stl_filepath)`.  The Python `in` operator is a *substring* test
on the path string. -/

/-- Whether `ModelViewer.load_stl` deletes the file at `filepath` after the
read attempt, given the system temp directory `tempdir` and whether the
file exists.  Direct embedding of the `finally` block condition. -/
def load_stl_deletes (tempdir filepath : List Char) (fileExists : Bool) : Bool :=
  fileExists && listContains tempdir filepath

/-- Modelled from the spec's words ("the path lies inside the
temporary-file area"): the path is inside the temp directory exactly when
the temp-directory path is a *prefix* of it.  Used only to compare the
spec's notion against the code's substring test. -/
def specInsideTempArea (tempdir filepath : List Char) : Bool :=
  listStartsWith tempdir filepath

/-! ## Code-fence stripping (src/CAD2.py lines 100-103)

```
if cad_query_code_str.strip().startswith("```python"):
    cad_query_code_str = cad_query_code_str.strip()[len("```python"):].strip()
if cad_query_code_str.strip().endswith("```"):
    cad_query_code_str = cad_query_code_str.strip()[:-len("```")].strip()
```
-/

/-- The opening fence marker `"```python"` as characters. -/
def fenceOpen : List Char := ("```python").data

/-- The closing fence marker "```" as characters. -/
def fenceClose : List Char := ("```").data

/-- Embedding of the two fence-stripping `if` statements on character
lists: each branch re-strips, slices off the marker, and strips again,
exactly as the source does. -/
def stripCodeFenceList (s : List Char) : List Char :=
  let s1 :=
    if listStartsWith fenceOpen (pyStrip s) then
      pyStrip ((pyStrip s).drop fenceOpen.length)
    else s
  if listEndsWith fenceClose (pyStrip s1) then
    pyStrip ((pyStrip s1).take ((pyStrip s1).length - fenceClose.length))
  else s1

/-- The fence stripper on strings. -/
def stripCodeFence (s : String) : String := ⟨stripCodeFenceList s.data⟩

/-! ## Code execution and result validation

`exec(cad_query_code_str, exec_globals)` runs the generated script in a
namespace `{'cq': cq, 'result': None}`; the script's effect on the
`result` binding, and any exception it raises, are modelled by
`ExecOutcome`.  The read-back value `exec_globals.get('result')` is a
Python value, modelled by `PyValue`; the source then checks
`if cad_model and isinstance(cad_model, cq.Workplane)` — a truthiness
test followed by an instance test. -/

/-- A Python value read back from the executed namespace's `result`
binding.  `vNone` is the initial placeholder `None` (the binding was
never reassigned); `vWorkplane` is an instance of `cq.Workplane`. -/
inductive PyValue where
  | vNone
  | vInt (n : Int)
  | vStr (s : String)
  | vWorkplane
  deriving DecidableEq

/-- Python truthiness of a read-back value (`if cad_model and ...`).
A `cq.Workplane` defines no falsy protocol, so it is truthy. -/
def truthy : PyValue → Bool
  | .vNone => false
  | .vInt n => n != 0
  | .vStr s => s != ""
  | .vWorkplane => true

/-- Python `isinstance(v, cq.Workplane)`. -/
def isWorkplaneInstance : PyValue → Bool
  | .vWorkplane => true
  | _ => false

/-- Outcome of `exec` on the script text: normal termination with the
final `result` binding, a `SyntaxError`, or any other exception (the
export step's failures land here too, per the source's `except` order). -/
inductive ExecOutcome where
  | ok (result : PyValue)
  | syntaxErr (msg : String)
  | runtimeErr (msg : String)
  deriving DecidableEq

/-- Invalid-result failure message of the worker (src/CAD2.py lines
157-161): three adjacent literals concatenated, then the code text. -/
def invalidResultMsg (code : String) : String :=
  "Generated code did not produce a valid CadQuery model assigned to 'result'." ++
    "Please refine your description to ensure the final model is assigned to 'result'." ++
    "\nGenerated code:\n" ++ code

/-- Syntax-error failure message of the worker (lines 162-164). -/
def syntaxErrorMsg (e code : String) : String :=
  "Syntax error in generated CadQuery code: " ++ e ++ "\nGenerated code:\n" ++ code

/-- Runtime/export failure message of the worker (lines 165-167). -/
def runtimeErrorMsg (e code : String) : String :=
  "Error executing CadQuery code or exporting model: " ++ e ++
    "\nGenerated code:\n" ++ code

/-- Signal emitted at the end of `CadQueryGenerator.run`'s execution
phase: `generation_finished(stl_path)` or `generation_error(message)`. -/
inductive WorkerEvent where
  | generation_finished (stlPath : String)
  | generation_error (msg : String)
  deriving DecidableEq

/-- Execution phase of `CadQueryGenerator.run` (src/CAD2.py lines
138-169): guard `if cad_query_code_str:`, execute, validate the `result`
binding, export to `stlPath` on success, and map every failure to a
`generation_error` message. -/
def workerExecute (code : String) (outcome : ExecOutcome) (stlPath : String) :
    WorkerEvent :=
  if code = "" then .generation_error "No CadQuery code available for execution."
  else
    match outcome with
    | .ok v =>
      if truthy v && isWorkplaneInstance v then .generation_finished stlPath
      else .generation_error (invalidResultMsg code)
    | .syntaxErr e => .generation_error (syntaxErrorMsg e code)
    | .runtimeErr e => .generation_error (runtimeErrorMsg e code)

/-- Status text produced by the synchronous replay path
`CADChatbotApp._execute_cad_code_and_display` (src/CAD2.py lines
477-513), which re-executes a stored snapshot on undo/redo. -/
def displayExecute (code : String) (outcome : ExecOutcome) : String :=
  if code = "" then "No CAD code to display."
  else
    match outcome with
    | .ok v =>
      if truthy v && isWorkplaneInstance v then "Model displayed successfully!"
      else "Error: Executed code did not produce a valid CadQuery model assigned to 'result'."
    | .syntaxErr e => "Syntax error in CadQuery code: " ++ e
    | .runtimeErr e => "Error executing CadQuery code or displaying model: " ++ e

/-! ## Revision history

`CADChatbotApp` keeps `self.model_history : list[str]` and
`self.history_pointer : int` (initialised to `[]` and `-1` in `__init__`,
lines 237-238).  Pushing happens inside `on_generation_finished` (lines
673-678), undo/redo in `undo_model` / `redo_model` (lines 576-600), and
the resets in `new_file`, `clear_model` and `open_file`. -/

/-- Initial history state from `__init__` (lines 237-238):
`self.model_history = []`, `self.history_pointer = -1`. -/
def initialHistory : List String × Int := ([], -1)

/-- History reset performed by `new_file` (lines 526-527). -/
def new_file_history : List String × Int := ([], -1)

/-- History reset performed by `clear_model` (lines 572-573). -/
def clear_model_history : List String × Int := ([], -1)

/-- History reset performed by `open_file` (lines 539-540). -/
def open_file_history : List String × Int := ([], -1)

/-- History update of `on_generation_finished` (src/CAD2.py lines
673-678): only if the current code is non-empty, truncate the list to
`[:pointer+1]` when the pointer is not at the last index, append the
code, and set the pointer to the new last index. -/
def pushHistory (code : String) (hist : List String) (ptr : Int) :
    List String × Int :=
  if code ≠ "" then
    let hist1 :=
      if ptr < (hist.length : Int) - 1 then hist.take (ptr + 1).toNat else hist
    let hist2 := hist1 ++ [code]
    (hist2, (hist2.length : Int) - 1)
  else (hist, ptr)

/-- `CADChatbotApp.undo_model` (src/CAD2.py lines 576-587) restricted to
its history effect: returns the new `(model_history, history_pointer)`,
the snapshot loaded for replay (`None` at the boundary), and the report
text (appended to the chat transcript on success, shown in the status
label at the boundary). -/
def undo_model (hist : List String) (ptr : Int) :
    (List String × Int) × Option String × String :=
  if 0 < ptr then
    ((hist, ptr - 1), hist.get? (ptr - 1).toNat, "Undoing last change.")
  else ((hist, ptr), none, "No more actions to undo.")

/-- `CADChatbotApp.redo_model` (src/CAD2.py lines 589-600), same
presentation as `undo_model`. -/
def redo_model (hist : List String) (ptr : Int) :
    (List String × Int) × Option String × String :=
  if ptr < (hist.length : Int) - 1 then
    ((hist, ptr + 1), hist.get? (ptr + 1).toNat, "Redoing last change.")
  else ((hist, ptr), none, "No more actions to redo.")

/-- The revision-history invariant: the pointer stays in
`[-1, length-1]` and is `-1` exactly when the history is empty. -/
def histInv (hist : List String) (ptr : Int) : Prop :=
  -1 ≤ ptr ∧ ptr ≤ (hist.length : Int) - 1 ∧ (ptr = -1 ↔ hist = [])

instance (hist : List String) (ptr : Int) : Decidable (histInv hist ptr) := by
  unfold histInv; infer_instance

/-! ## Session-level generation triggers

The fields of `CADChatbotApp` that the generation triggers touch,
plus `workersStarted`, a counter of `generator_thread.start()` calls
(observing how many workers were launched), and `generatorRunning`,
which is `true` from a `start()` until that worker's
`generation_finished` / `generation_error` signal is handled. -/

structure Session where
  descriptionInput : String
  chatHistory : List String
  statusText : String
  generateEnabled : Bool
  viewerCleared : Bool
  currentCadCode : String
  modelHistory : List String
  historyPointer : Int
  generatorRunning : Bool
  workersStarted : Nat
  deriving DecidableEq

/-- The session right after `__init__` / `init_ui` (lines 228-241):
empty inputs, empty history, pointer `-1`, Generate button enabled, no
worker. -/
def initSession : Session :=
  { descriptionInput := ""
    chatHistory := []
    statusText := ""
    generateEnabled := true
    viewerCleared := false
    currentCadCode := ""
    modelHistory := []
    historyPointer := -1
    generatorRunning := false
    workersStarted := 0 }

/-- `CADChatbotApp.generate_cad_query` (src/CAD2.py lines 640-661): strip
the description; if empty, only set the status prompt and return;
otherwise append the transcript entry, clear the input, disable the
Generate button, set the busy status, clear the viewer, and start a
`CadQueryGenerator` worker. -/
def generate_cad_query (s : Session) : Session :=
  let description := pyStripStr s.descriptionInput
  if description = "" then
    { s with statusText := "Please enter a description for the CAD part." }
  else
    { s with
      chatHistory := s.chatHistory ++ ["You: " ++ description]
      descriptionInput := ""
      generateEnabled := false
      statusText := "Generating model, please wait..."
      viewerCleared := true
      generatorRunning := true
      workersStarted := s.workersStarted + 1 }

/-- Qt dispatch of a click on the Generate button: a disabled button
emits no `clicked` signal, so the handler runs only when the button is
enabled. -/
def click_generate (s : Session) : Session :=
  if s.generateEnabled then generate_cad_query s else s

/-- `CADChatbotApp.upload_sketch` (src/CAD2.py lines 602-637), success
path after the user picked `filename` and the image was read: append the
transcript entry, clear the input, disable the Generate button, set the
busy status, clear the viewer, and start a sketch worker.  The toolbar
action that triggers it is never disabled, and the handler performs no
check that a worker is already running. -/
def upload_sketch (s : Session) (filename : String) : Session :=
  { s with
    chatHistory := s.chatHistory ++ ["You: Uploaded sketch: " ++ filename]
    descriptionInput := ""
    generateEnabled := false
    statusText := "Generating model from sketch, please wait..."
    viewerCleared := true
    generatorRunning := true
    workersStarted := s.workersStarted + 1 }

/-- `CADChatbotApp.on_generation_finished` (src/CAD2.py lines 663-678):
re-enable the Generate button, drop the worker handle, append the
success transcript entry, and push `current_cad_code` per
`pushHistory`. -/
def on_generation_finished (s : Session) : Session :=
  let hp := pushHistory s.currentCadCode s.modelHistory s.historyPointer
  { s with
    statusText := "CadQuery model generated and displayed successfully!"
    generateEnabled := true
    generatorRunning := false
    chatHistory := s.chatHistory ++ ["AutoModel: Model generated successfully!"]
    modelHistory := hp.1
    historyPointer := hp.2 }

/-- `CADChatbotApp.on_generation_error` (src/CAD2.py lines 685-692):
re-enable the Generate button, drop the worker handle, append the error
transcript entry; history untouched. -/
def on_generation_error (s : Session) (errorMessage : String) : Session :=
  { s with
    statusText := "Error: " ++ errorMessage
    generateEnabled := true
    generatorRunning := false
    chatHistory := s.chatHistory ++ ["AutoModel: Error: " ++ errorMessage] }

/-! ## Helper lemmas for the history invariant -/

theorem histInv_iff (hist : List String) (ptr : Int) :
    histInv hist ptr ↔
      -1 ≤ ptr ∧ ptr ≤ (hist.length : Int) - 1 ∧ (ptr = -1 ↔ hist.length = 0) := by
  simp [histInv, List.length_eq_zero]

theorem pushHistory_inv (code : String) (hist : List String) (ptr : Int)
    (h : histInv hist ptr) :
    histInv (pushHistory code hist ptr).1 (pushHistory code hist ptr).2 := by
  by_cases hcode : code = ""
  · simpa [pushHistory, hcode] using h
  · by_cases hlt : ptr < (hist.length : Int) - 1
    · have hpush : pushHistory code hist ptr =
          (hist.take (ptr + 1).toNat ++ [code],
            ((hist.take (ptr + 1).toNat ++ [code]).length : Int) - 1) := by
        simp [pushHistory, hcode, hlt]
      rw [hpush, histInv_iff]
      simp [List.length_take, List.length_append]
      omega
    · have hpush : pushHistory code hist ptr =
          (hist ++ [code], ((hist ++ [code]).length : Int) - 1) := by
        simp [pushHistory, hcode, hlt]
      rw [hpush, histInv_iff]
      simp [List.length_append]
      omega

theorem undo_model_inv (hist : List String) (ptr : Int) (h : histInv hist ptr) :
    histInv (undo_model hist ptr).1.1 (undo_model hist ptr).1.2 := by
  rw [histInv_iff] at h
  by_cases h0 : 0 < ptr
  · simp only [undo_model, h0, if_true, histInv_iff]
    omega
  · simpa [undo_model, h0, histInv_iff] using h

theorem redo_model_inv (hist : List String) (ptr : Int) (h : histInv hist ptr) :
    histInv (redo_model hist ptr).1.1 (redo_model hist ptr).1.2 := by
  rw [histInv_iff] at h
  by_cases h0 : ptr < (hist.length : Int) - 1
  · simp only [redo_model, h0, if_true, histInv_iff]
    omega
  · simpa [redo_model, h0, histInv_iff] using h

/-! ## Claim theorems -/

/-- C1, counterexample: with temp directory `/tmp`, the permanent
user-chosen path `/home/u/tmp/part.stl` lies outside the temporary-file
area, yet `load_stl` deletes it, because the source tests
`tempfile.gettempdir() in stl_filepath`, a substring test, not a
containment test.  This refutes "a path outside the temporary-file area
is never deleted". -/
theorem C1_counterexample :
    load_stl_deletes ("/tmp").data ("/home/u/tmp/part.stl").data true = true ∧
    specInsideTempArea ("/tmp").data ("/home/u/tmp/part.stl").data = false := by
  decide

/-- C1, amended: `load_stl` deletes the file after the read attempt iff
the file exists and the temp-directory path occurs as a *substring* of
the path.  Hence every existing path inside the temporary-file area is
deleted, and a deleted path always contains the temp-directory string —
but a permanent path containing that string is deleted too. -/
theorem C1_delete_iff_substring (tempdir filepath : List Char)
    (fileExists : Bool) (hin : specInsideTempArea tempdir filepath = true) :
    load_stl_deletes tempdir filepath true = true ∧
    (load_stl_deletes tempdir filepath fileExists = true →
      fileExists = true ∧ listContains tempdir filepath = true) := by
  constructor
  · simp [load_stl_deletes]
    exact listContains_of_listStartsWith hin
  · intro h
    simpa [load_stl_deletes, Bool.and_eq_true] using h

/-- Witness for `C1_delete_iff_substring` at temp directory `/tmp` and
path `/tmp/x.stl`. -/
theorem C1_delete_iff_substring_witness :
    load_stl_deletes ("/tmp").data ("/tmp/x.stl").data true = true ∧
    (load_stl_deletes ("/tmp").data ("/tmp/x.stl").data true = true →
      true = true ∧ listContains ("/tmp").data ("/tmp/x.stl").data = true) :=
  C1_delete_iff_substring ("/tmp").data ("/tmp/x.stl").data true (by decide)

/-- C2, counterexample: after triggering a generation from the
description "a box" a worker is running, yet triggering Upload Sketch —
whose toolbar action is never disabled and whose handler performs no
in-flight check — starts a second worker before the first completes.
This refutes "a second generation worker can never be started before the
first completes". -/
theorem C2_counterexample :
    (generate_cad_query { initSession with descriptionInput := "a box" }).generatorRunning
        = true ∧
    (generate_cad_query { initSession with descriptionInput := "a box" }).workersStarted
        = 1 ∧
    (upload_sketch (generate_cad_query { initSession with descriptionInput := "a box" })
        "sketch.png").generatorRunning = true ∧
    (upload_sketch (generate_cad_query { initSession with descriptionInput := "a box" })
        "sketch.png").workersStarted = 2 := by
  refine ⟨by decide, by decide, by decide, by decide⟩

/-- C2, amended: starting a generation from a non-blank description
disables the Generate button, and a click on a disabled button is
ignored, so a second generation cannot be triggered through the Generate
button while one is in flight; the Upload Sketch control, however, is
not disabled. -/
theorem C2_generate_button_guard (s : Session)
    (h2 : pyStripStr s.descriptionInput ≠ "") :
    (generate_cad_query s).generateEnabled = false ∧
    click_generate (generate_cad_query s) = generate_cad_query s ∧
    (∀ t : Session, t.generateEnabled = false → click_generate t = t) := by
  have hgen : (generate_cad_query s).generateEnabled = false := by
    simp [generate_cad_query, h2]
  refine ⟨hgen, by simp [click_generate, hgen], ?_⟩
  intro t ht
  simp [click_generate, ht]

/-- Witness for `C2_generate_button_guard` at the initial session with
description "a box". -/
theorem C2_generate_button_guard_witness :
    (generate_cad_query { initSession with descriptionInput := "a box" }).generateEnabled
      = false :=
  (C2_generate_button_guard { initSession with descriptionInput := "a box" }
    (by decide)).1

/-- C3, counterexample: on the synchronous undo/redo replay path, the
snapshot "result = 5" fails result validation and the user-visible
status message is a fixed text that does not contain the code.  This
refutes "this holds ... on the synchronous undo/redo replay path
alike". -/
theorem C3_counterexample :
    displayExecute "result = 5" (.ok (.vInt 5)) =
      "Error: Executed code did not produce a valid CadQuery model assigned to 'result'." ∧
    listContains ("result = 5").data
      ("Error: Executed code did not produce a valid CadQuery model assigned to 'result'.").data
      = false := by
  exact ⟨by decide, by decide⟩

/-- C3, amended: on the generation-worker path, every failure arising
from executing the generated code — invalid result, syntax error, or
runtime/export error — produces a `generation_error` whose message
contains the full code text; the replay path's messages do not append
the code. -/
theorem C3_worker_failure_contains_code (code e stlPath : String) (v : PyValue)
    (hc : code ≠ "") (hv : (truthy v && isWorkplaneInstance v) = false) :
    (workerExecute code (.ok v) stlPath =
        .generation_error (invalidResultMsg code) ∧
      listContains code.data (invalidResultMsg code).data = true) ∧
    (workerExecute code (.syntaxErr e) stlPath =
        .generation_error (syntaxErrorMsg e code) ∧
      listContains code.data (syntaxErrorMsg e code).data = true) ∧
    (workerExecute code (.runtimeErr e) stlPath =
        .generation_error (runtimeErrorMsg e code) ∧
      listContains code.data (runtimeErrorMsg e code).data = true) := by
  refine ⟨⟨by simp [workerExecute, hc, hv], ?_⟩,
          ⟨by simp [workerExecute, hc], ?_⟩,
          ⟨by simp [workerExecute, hc], ?_⟩⟩
  · simp only [invalidResultMsg, String.data_append]
    exact listContains_append_self _ _
  · simp only [syntaxErrorMsg, String.data_append]
    exact listContains_append_self _ _
  · simp only [runtimeErrorMsg, String.data_append]
    exact listContains_append_self _ _

/-- Witness for `C3_worker_failure_contains_code` at code "result = 5",
exception text "boom", and result value `5`. -/
theorem C3_worker_failure_contains_code_witness :
    listContains ("result = 5").data (invalidResultMsg "result = 5").data = true :=
  (C3_worker_failure_contains_code "result = 5" "boom" "/tmp/m.stl" (.vInt 5)
    (by decide) (by decide)).1.2

/-- C4: when the cursor is not at the last index, pushing first discards
every snapshot after the cursor, then appends, leaving the cursor at the
new last index; concretely, from history `[a, b, c]` with cursor at `c`,
undoing to `b` and then pushing `d` yields `[a, b, d]`. -/
theorem C4_push_truncates (code : String) (hist : List String) (ptr : Int)
    (hc : code ≠ "") (h0 : -1 ≤ ptr) (h1 : ptr < (hist.length : Int) - 1) :
    pushHistory code hist ptr = (hist.take (ptr + 1).toNat ++ [code], ptr + 1) ∧
    undo_model ["a", "b", "c"] 2 =
      (( ["a", "b", "c"], 1), some "b", "Undoing last change.") ∧
    pushHistory "d" ["a", "b", "c"] 1 = (["a", "b", "d"], 2) := by
  refine ⟨?_, by decide, by decide⟩
  have h2 : pushHistory code hist ptr =
      (hist.take (ptr + 1).toNat ++ [code],
        ((hist.take (ptr + 1).toNat ++ [code]).length : Int) - 1) := by
    simp [pushHistory, hc, h1]
  rw [h2]
  have h3 : ((hist.take (ptr + 1).toNat ++ [code]).length : Int) - 1 = ptr + 1 := by
    simp [List.length_take, List.length_append]
    omega
  rw [h3]

/-- Witness for `C4_push_truncates` at code "d", history
`["a", "b", "c"]`, cursor 1. -/
theorem C4_push_truncates_witness :
    pushHistory "d" ["a", "b", "c"] 1 =
      (["a", "b", "c"].take ((1 : Int) + 1).toNat ++ ["d"], 1 + 1) :=
  (C4_push_truncates "d" ["a", "b", "c"] 1 (by decide) (by decide) (by decide)).1

/-- C5: whenever the cursor is positive (undo defined) and a valid index
(so redo is defined after it), undo followed by redo restores exactly
the cursor that was current before the undo, and redo reloads exactly
the snapshot at that cursor. -/
theorem C5_undo_redo_roundtrip (hist : List String) (ptr : Int)
    (h0 : 0 < ptr) (h1 : ptr < (hist.length : Int)) :
    redo_model (undo_model hist ptr).1.1 (undo_model hist ptr).1.2 =
      ((hist, ptr), hist.get? ptr.toNat, "Redoing last change.") := by
  have hc : ptr - 1 < (hist.length : Int) - 1 := by omega
  have he : ptr - 1 + 1 = ptr := by omega
  simp [undo_model, h0, redo_model, hc, he]

/-- Witness for `C5_undo_redo_roundtrip` at history `["a", "b"]`,
cursor 1. -/
theorem C5_undo_redo_roundtrip_witness :
    redo_model (undo_model ["a", "b"] 1).1.1 (undo_model ["a", "b"] 1).1.2 =
      (( ["a", "b"], 1), ["a", "b"].get? (1 : Int).toNat, "Redoing last change.") :=
  C5_undo_redo_roundtrip ["a", "b"] 1 (by decide) (by decide)

/-- C6: in any state satisfying the history invariant, undo with the
cursor at 0 or with an empty history returns nothing, leaves the state
unchanged and reports "No more actions to undo."; redo with the cursor
at the last index returns nothing, leaves the state unchanged and
reports "No more actions to redo.". -/
theorem C6_boundary_no_ops (hist : List String) (ptr : Int)
    (hinv : histInv hist ptr) :
    ((ptr = 0 ∨ hist = []) →
      undo_model hist ptr = ((hist, ptr), none, "No more actions to undo.")) ∧
    (ptr = (hist.length : Int) - 1 →
      redo_model hist ptr = ((hist, ptr), none, "No more actions to redo.")) := by
  obtain ⟨ha, hb, hc⟩ := hinv
  constructor
  · rintro (rfl | rfl)
    · simp [undo_model]
    · have hm : ptr = -1 := hc.mpr rfl
      subst hm
      simp [undo_model]
  · intro hlast
    have hn : ¬ ptr < (hist.length : Int) - 1 := by omega
    simp [redo_model, hn]

/-- Witness for `C6_boundary_no_ops` at history `["a"]`, cursor 0. -/
theorem C6_boundary_no_ops_witness :
    undo_model ["a"] 0 = (( ["a"], 0), none, "No more actions to undo.") :=
  (C6_boundary_no_ops ["a"] 0 (by decide)).1 (Or.inl rfl)

/-- C7: the revision-history invariant — cursor in `[-1, length-1]`,
and cursor `= -1` iff the snapshot list is empty — holds in the initial
state, after each reset (new session, clear model, file open), and is
preserved by push, undo and redo. -/
theorem C7_history_invariant :
    histInv initialHistory.1 initialHistory.2 ∧
    histInv new_file_history.1 new_file_history.2 ∧
    histInv clear_model_history.1 clear_model_history.2 ∧
    histInv open_file_history.1 open_file_history.2 ∧
    ∀ hist ptr, histInv hist ptr →
      (∀ code,
        histInv (pushHistory code hist ptr).1 (pushHistory code hist ptr).2) ∧
      histInv (undo_model hist ptr).1.1 (undo_model hist ptr).1.2 ∧
      histInv (redo_model hist ptr).1.1 (redo_model hist ptr).1.2 := by
  refine ⟨by decide, by decide, by decide, by decide, ?_⟩
  intro hist ptr h
  exact ⟨fun code => pushHistory_inv code hist ptr h,
    undo_model_inv hist ptr h, redo_model_inv hist ptr h⟩

/-- Witness for `C7_history_invariant`: pushing "d" onto history `["a"]`
with cursor 0 preserves the invariant. -/
theorem C7_history_invariant_witness :
    histInv (pushHistory "d" ["a"] 0).1 (pushHistory "d" ["a"] 0).2 :=
  (C7_history_invariant.2.2.2.2 ["a"] 0 (by decide)).1 "d"

/-- C8: the executor phase of the worker succeeds only when the `result`
binding read back from the namespace is a (truthy) `cq.Workplane`
instance; whenever it is not such an instance the worker fails with the
invalid-result error carrying the code; in particular `result = 5`
fails with the invalid-result error. -/
theorem C8_result_validation (code stlPath : String) (v : PyValue)
    (hc : code ≠ "") :
    (workerExecute code (.ok v) stlPath = .generation_finished stlPath →
      isWorkplaneInstance v = true) ∧
    (isWorkplaneInstance v = false →
      workerExecute code (.ok v) stlPath =
        .generation_error (invalidResultMsg code)) ∧
    workerExecute "result = 5" (.ok (.vInt 5)) stlPath =
      .generation_error (invalidResultMsg "result = 5") := by
  refine ⟨?_, ?_, ?_⟩
  · intro hfin
    by_cases h : (truthy v && isWorkplaneInstance v) = true
    · exact ((Bool.and_eq_true _ _).mp h).2
    · simp [workerExecute, hc, h] at hfin
  · intro hv
    simp [workerExecute, hc, hv]
  · simp [workerExecute, truthy, isWorkplaneInstance]

/-- Witness for `C8_result_validation` at code "result = 5" and result
value `5`. -/
theorem C8_result_validation_witness :
    workerExecute "result = 5" (.ok (.vInt 5)) "/tmp/model.stl" =
      .generation_error (invalidResultMsg "result = 5") :=
  (C8_result_validation "result = 5" "/tmp/model.stl" (.vInt 5) (by decide)).2.2

/-- C9: the fence-stripping step maps the fenced response text to the
bare code with no fence markers and no surrounding whitespace. -/
theorem C9_fence_strip :
    stripCodeFence ("```python\nresult = x\n```") = "result = x" := by decide

/-- C10: when the stripped description is empty, triggering Generate
starts no worker and leaves the viewer, the current code, the history,
the transcript and the input unchanged; only the status prompt asking
for a description is set. -/
theorem C10_blank_description (s : Session)
    (h : pyStripStr s.descriptionInput = "") :
    (generate_cad_query s).workersStarted = s.workersStarted ∧
    (generate_cad_query s).generatorRunning = s.generatorRunning ∧
    (generate_cad_query s).modelHistory = s.modelHistory ∧
    (generate_cad_query s).historyPointer = s.historyPointer ∧
    (generate_cad_query s).currentCadCode = s.currentCadCode ∧
    (generate_cad_query s).chatHistory = s.chatHistory ∧
    (generate_cad_query s).viewerCleared = s.viewerCleared ∧
    (generate_cad_query s).descriptionInput = s.descriptionInput ∧
    (generate_cad_query s).generateEnabled = s.generateEnabled ∧
    (generate_cad_query s).statusText = "Please enter a description for the CAD part." := by
  simp [generate_cad_query, h]

/-- Witness for `C10_blank_description` at the initial session with the
all-blank description "   ". -/
theorem C10_blank_description_witness :
    (generate_cad_query { initSession with descriptionInput := "   " }).workersStarted =
      ({ initSession with descriptionInput := "   " } : Session).workersStarted :=
  (C10_blank_description { initSession with descriptionInput := "   " } (by decide)).1

end AutoCAD
